import Mathlib

set_option maxRecDepth 8000

/-!
Verification of the Hearth style-token registry and its documentation.

The repository consists of documentation for a style-token registry
(`src/styles/classNames.js`): named categories of utility-class strings
(buttons, cards, layouts, typography, icons, spacing, sections, responsive,
backgrounds, animations, badges) together with accessor functions that resolve
a `(category, variant)` pair to a class string with a per-category default as
fallback, and a composition helper that joins tokens with single spaces.

The registry module itself is not among the repository files available here;
only its documentation is.  Definitions marked `Modelled from the spec` embed
the registry and its accessors from the words of the specification; the remaining
definitions embed data that is literally present in the documentation files
(the icon-size tables, the before/after refactoring snippets, and the full
line contents of `DEVELOPER_EXAMPLES.js`).
-/

/-- Modelled from the spec: the error condition for a category name outside the
enumerated set.  The contract the spec recommends is an `UnknownCategory`
condition raised loudly, as opposed to variant misses, which fall back to the
category default. -/
inductive TokenError where
  | unknownCategory
  deriving DecidableEq

/-- First-match association lookup by string key, as performed by a property
access on a plain object keyed by strings. -/
def assocFind {α : Type} (k : String) : List (String × α) → Option α
  | [] => none
  | (k', a) :: rest => if k' = k then some a else assocFind k rest

/-- Modelled from the spec: `src/styles/classNames.js` is not among the files
available, so the registry contents are reconstructed from its documentation.
The variant names of every category follow the enumeration in the developer
guide (the Available Utility Categories listing plus the backgrounds and badges tables of
the quick reference).  The token of a variant is the literal class string the
documentation records for it (the authored button example, the before/after
snippets, and the icon/spacing tables); a variant whose literal string no
document records is given its qualified name as a placeholder token,
and no theorem below depends on those placeholder values. -/
def buttonsVariants : List (String × String) :=
  [("primary", "bg-amber-700 hover:bg-amber-800"),
   ("primaryLg", "buttons.primaryLg"),
   ("primaryGradient", "buttons.primaryGradient"),
   ("outline", "buttons.outline"),
   ("ghost", "buttons.ghost")]

/-- Card variants as enumerated by the developer guide; `base` is the
documented default variant of the category. -/
def cardsVariants : List (String × String) :=
  [("base", "cards.base"),
   ("primary", "cards.primary"),
   ("accent", "cards.accent"),
   ("hover", "cards.hover"),
   ("featured", "cards.featured"),
   ("heroBg", "cards.heroBg")]

/-- Layout variants; the two grid tokens and `flexBetween` carry the literal
strings shown in the documented before/after snippets. -/
def layoutsVariants : List (String × String) :=
  [("grid2Col", "grid md:grid-cols-2 gap-12 items-center"),
   ("grid3Col", "grid md:grid-cols-3 gap-6 items-start"),
   ("grid4Col", "layouts.grid4Col"),
   ("grid6Col", "layouts.grid6Col"),
   ("flexBetween", "flex justify-between items-center"),
   ("flexCenter", "layouts.flexCenter"),
   ("flexCol", "layouts.flexCol"),
   ("flexWrap", "layouts.flexWrap")]

/-- Typography variants; `h1` and `textMuted` carry the literal strings shown
in the documented before/after snippets. -/
def typographyVariants : List (String × String) :=
  [("h1", "text-5xl font-bold text-gray-900"),
   ("h2", "typography.h2"),
   ("h2Center", "typography.h2Center"),
   ("h3", "typography.h3"),
   ("h4", "typography.h4"),
   ("body", "typography.body"),
   ("bodySm", "typography.bodySm"),
   ("textMuted", "text-gray-600"),
   ("textBold", "typography.textBold")]

/-- Icon variants; the seven size tokens are given literally in the developer
guide (`size-4` through `size-16`). -/
def iconsVariants : List (String × String) :=
  [("sm", "size-4"),
   ("md", "size-5"),
   ("lg", "size-6"),
   ("xl", "size-8"),
   ("xxl", "size-10"),
   ("xxxl", "size-12"),
   ("huge", "size-16"),
   ("colorPrimary", "icons.colorPrimary"),
   ("colorAccent", "icons.colorAccent"),
   ("colorMuted", "icons.colorMuted")]

/-- Spacing variants with the literal utility strings of the quick-reference
table and of refactoring Pattern 5. -/
def spacingVariants : List (String × String) :=
  [("gap4", "gap-4"),
   ("gap6", "gap-6"),
   ("gap12", "gap-12"),
   ("spaceY4", "space-y-4"),
   ("spaceY6", "space-y-6"),
   ("spaceY8", "space-y-8")]

/-- Section variants as enumerated by the developer guide. -/
def sectionsVariants : List (String × String) :=
  [("hero", "sections.hero"),
   ("container", "sections.container"),
   ("containerLarge", "sections.containerLarge"),
   ("containerXL", "sections.containerXL")]

/-- Responsive variants as enumerated by the developer guide. -/
def responsiveVariants : List (String × String) :=
  [("hiddenMobile", "responsive.hiddenMobile"),
   ("mobileOnly", "responsive.mobileOnly"),
   ("desktopOnly", "responsive.desktopOnly")]

/-- Background variants as enumerated by the quick reference. -/
def backgroundsVariants : List (String × String) :=
  [("heroBg", "backgrounds.heroBg"),
   ("cardBg", "backgrounds.cardBg"),
   ("primaryInfo", "backgrounds.primaryInfo"),
   ("accentInfo", "backgrounds.accentInfo")]

/-- Animation variants as enumerated by the developer guide. -/
def animationsVariants : List (String × String) :=
  [("pulse", "animations.pulse"),
   ("transition", "animations.transition"),
   ("transitionShadow", "animations.transitionShadow")]

/-- Badge variants; only `primary` is used in the documentation. -/
def badgesVariants : List (String × String) :=
  [("primary", "badges.primary")]

/-- Modelled from the spec: the registry is the fixed set of all categories,
each carrying its designated default variant (the one the fallback accessors
substitute for a missing variant) and its variant table.  The spec documents
`base` as the default of `cards`; the helper-function documentation presents
`primary` as the standard button; for the remaining categories the first
listed variant is designated. -/
def registry : List (String × String × List (String × String)) :=
  [("buttons", "primary", buttonsVariants),
   ("cards", "base", cardsVariants),
   ("layouts", "grid2Col", layoutsVariants),
   ("typography", "h1", typographyVariants),
   ("icons", "sm", iconsVariants),
   ("spacing", "gap4", spacingVariants),
   ("sections", "hero", sectionsVariants),
   ("responsive", "hiddenMobile", responsiveVariants),
   ("backgrounds", "heroBg", backgroundsVariants),
   ("animations", "pulse", animationsVariants),
   ("badges", "primary", badgesVariants)]

/-- Resolution of a category name to its default variant and variant table. -/
def findCategory (c : String) : Option (String × List (String × String)) :=
  assocFind c registry

/-- Modelled from the spec: resolve `(category, variant)` over a given table.
A defined variant yields its token; a missing variant in a known category
yields the default-variant token of the category (never an error); an unknown
category fails with the `UnknownCategory` condition. -/
def getTokenIn (table : List (String × String × List (String × String)))
    (c v : String) : Except TokenError String :=
  match assocFind c table with
  | none => Except.error TokenError.unknownCategory
  | some (d, vs) =>
    match assocFind v vs with
    | some t => Except.ok t
    | none =>
      match assocFind d vs with
      | some t => Except.ok t
      | none => Except.ok ("")

/-- Modelled from the spec: the public accessor over the process-wide
registry. -/
def getToken (c v : String) : Except TokenError String :=
  getTokenIn registry c v

/-- Modelled from the spec: concatenate an ordered sequence of tokens with
single-space separation, preserving input order; the empty sequence yields the
empty string. -/
def composeTokens : List String → String
  | [] => ""
  | [t] => t
  | t :: rest => t ++ " " ++ composeTokens rest

/-- Modelled from the spec: the process-wide state holding the registry,
constructed once at initialization. -/
structure RegistryState where
  table : List (String × String × List (String × String))
  deriving DecidableEq

/-- Modelled from the spec: the state at process start, holding the registry. -/
def initialRegistryState : RegistryState := ⟨registry⟩

/-- Modelled from the spec: a `getToken` call as a state transition, reading
the registry held in the state and returning the (possibly unchanged) state
alongside the result. -/
def getTokenSt (s : RegistryState) (c v : String) :
    Except TokenError String × RegistryState :=
  (getTokenIn s.table c v, s)

/-- Modelled from the spec: a process lifetime as a sequence of `getToken`
calls threaded through the registry state, collecting the output of each call. -/
def runQueries : RegistryState → List (String × String) →
    List (Except TokenError String) × RegistryState
  | s, [] => ([], s)
  | s, q :: qs =>
    let out := getTokenSt s q.1 q.2
    let rest := runQueries out.2 qs
    (out.1 :: rest.1, rest.2)

/-- Boolean check that the keys of an association list are pairwise distinct
(each variant name maps to exactly one token). -/
def keysNodupB {α : Type} : List (String × α) → Bool
  | [] => true
  | (k, _) :: rest => (!(rest.any (fun e => e.1 == k))) && keysNodupB rest

/-- Scan the characters of one line of a JavaScript source file, given whether
the line starts inside a block comment.  Returns whether the line contains a
code token (anything outside comments other than whitespace) and whether the
file is inside a block comment at the end of the line.  Block comments do not
nest (the first `*/` terminates), and `//` comments run to the end of the
line, as in the ECMAScript lexical grammar. -/
def scanChars : Bool → List Char → Bool × Bool
  | inC, [] => (false, inC)
  | true, '*' :: '/' :: rest => scanChars false rest
  | true, _ :: rest => scanChars true rest
  | false, '/' :: '/' :: _ => (false, false)
  | false, '/' :: '*' :: rest => scanChars true rest
  | false, c :: rest =>
    if c = ' ' ∨ c = '\t' then scanChars false rest
    else ((true : Bool), (scanChars false rest).2)

/-- Classify every line of a JavaScript source file: `true` marks a line that
contains a code token, `false` a line that is blank or pure comment. -/
def scanLines : Bool → List String → List Bool
  | _, [] => []
  | inC, l :: ls =>
    let r := scanChars inC l.toList
    r.1 :: scanLines r.2 ls

/-- Literal card class string shown in the BEFORE half of refactoring
Pattern 2 of the implementation guide and, identically, in the BEFORE block of
`DEVELOPER_EXAMPLES.js`. -/
def cardBeforeClasses : String :=
  "rounded-lg border bg-amber-50 border-amber-200 hover:shadow-lg transition-shadow"

/-- Literal button class string shown in the BEFORE half of the implementation
guide in its Apply-to-Components example, whose AFTER half is
`buttons.primary`. -/
def applyComponentsButtonBefore : String :=
  "bg-amber-700 hover:bg-amber-800 text-white rounded-lg font-semibold"

/-- Assignment of literal strings to `cards.base`, `cards.primary` and
`cards.hover` under which both documented card refactorings are class-string
preserving: Pattern 2 of the implementation guide replaces the BEFORE string
with `cards.primary` followed by `cards.hover`, while `DEVELOPER_EXAMPLES.js`
replaces the same BEFORE string with `cards.base`, `cards.primary` and
`cards.hover`. -/
def cardRefactoringsPreserving (base primary hov : String) : Prop :=
  composeTokens [primary, hov] = cardBeforeClasses ∧
  composeTokens [base, primary, hov] = cardBeforeClasses

/-- Icon sizes in pixels as listed in the quick-reference icons table. -/
def quickReferenceIconSizesPx : List (String × Nat) :=
  [("sm", 16), ("md", 20), ("lg", 24), ("xl", 32), ("xxl", 40)]

/-- Icon size utilities as listed in the developer guide: each variant name
with the numeric suffix of its `size-N` utility class. -/
def guideIconSizeUnits : List (String × Nat) :=
  [("sm", 4), ("md", 5), ("lg", 6), ("xl", 8), ("xxl", 10), ("xxxl", 12),
   ("huge", 16)]

/-- Pixel value of the Tailwind `size-N` utility: one unit is 0.25rem, four
pixels at the default root font size. -/
def tailwindSizePx (units : Nat) : Nat := 4 * units

/-- Line contents of src/DEVELOPER_EXAMPLES.js, in order (braces, backticks and apostrophes written as character escapes). -/
def developerExamplesLines : List String := [
  "// ============================================",
  "// EXAMPLE: Using Developer-Friendly Class Names",
  "// ============================================",
  "",
  "// BEFORE: Hard to read, repeated patterns",
  "/*",
  "<div className=\"grid md:grid-cols-2 gap-12 items-center\">",
  "  <h1 className=\"text-5xl font-bold text-gray-900\">Title</h1>",
  "  <Button className=\"bg-amber-700 hover:bg-amber-800\">",
  "    <MessageCircle className=\"size-5 mr-2\" />",
  "    Click Me",
  "  </Button>",
  "</div>",
  "",
  "<Card className=\"rounded-lg border bg-amber-50 border-amber-200 hover:shadow-lg transition-shadow\">",
  "  <div className=\"flex justify-between items-center\">",
  "    <p className=\"text-gray-600\">Description</p>",
  "  </div>",
  "</Card>",
  "*/",
  "",
  "// AFTER: Clean, semantic, maintainable",
  "/*",
  "import \x7b layouts, buttons, cards, typography, icons \x7d from \x27@/styles/classNames\x27;",
  "",
  "<div className=\x7blayouts.grid2Col\x7d>",
  "  <h1 className=\x7btypography.h1\x7d>Title</h1>",
  "  <Button className=\x7bbuttons.primary\x7d>",
  "    <MessageCircle className=\x7b\x60$\x7bicons.md\x7d mr-2\x60\x7d />",
  "    Click Me",
  "  </Button>",
  "</div>",
  "",
  "<Card className=\x7b\x60$\x7bcards.base\x7d $\x7bcards.primary\x7d $\x7bcards.hover\x7d\x60\x7d>",
  "  <div className=\x7blayouts.flexBetween\x7d>",
  "    <p className=\x7btypography.textMuted\x7d>Description</p>",
  "  </div>",
  "</Card>",
  "*/",
  "",
  "// ============================================",
  "// COMMON PATTERNS & EXAMPLES",
  "// ============================================",
  "",
  "// 1. HERO SECTION",
  "/*",
  "<section className=\x7bsections.hero\x7d>",
  "  <div className=\x7bsections.containerLarge\x7d>",
  "    <div className=\x7blayouts.grid2Col\x7d>",
  "      <div className=\x7bspacing.spaceY6\x7d>",
  "        <h1 className=\x7btypography.h1\x7d>Main Title</h1>",
  "        <p className=\x7btypography.textMuted\x7d>Subtitle</p>",
  "      </div>",
  "    </div>",
  "  </div>",
  "</section>",
  "*/",
  "",
  "// 2. FEATURE CARDS GRID",
  "/*",
  "<div className=\x7blayouts.grid3Col\x7d>",
  "  \x7bfeatures.map((feature) => (",
  "    <Card key=\x7bfeature.id\x7d className=\x7b\x60$\x7bcards.base\x7d $\x7bcards.primary\x7d $\x7bcards.hover\x7d\x60\x7d>",
  "      <feature.icon className=\x7b\x60$\x7bicons.xl\x7d $\x7bicons.colorPrimary\x7d\x60\x7d />",
  "      <h3 className=\x7btypography.h3\x7d>\x7bfeature.title\x7d</h3>",
  "      <p className=\x7btypography.textMuted\x7d>\x7bfeature.description\x7d</p>",
  "    </Card>",
  "  ))\x7d",
  "</div>",
  "*/",
  "",
  "// 3. ACTION BUTTONS",
  "/*",
  "<div className=\x7b\x60$\x7blayouts.flexCenter\x7d $\x7bspacing.gap4\x7d\x60\x7d>",
  "  <Button className=\x7bbuttons.primary\x7d>Primary Action</Button>",
  "  <Button className=\x7bbuttons.primaryGradient\x7d>Premium Action</Button>",
  "  <Button className=\x7bbuttons.outline\x7d>Secondary Action</Button>",
  "</div>",
  "*/",
  "",
  "// 4. INFO BOX",
  "/*",
  "<div className=\x7bbackgrounds.primaryInfo\x7d>",
  "  <div className=\x7blayouts.flexBetween\x7d>",
  "    <InfoIcon className=\x7bicons.lg\x7d />",
  "    <p className=\x7btypography.bodySm\x7d>Important information</p>",
  "  </div>",
  "</div>",
  "*/",
  "",
  "// 5. RESPONSIVE SECTION",
  "/*",
  "<section className=\x7b\x60$\x7bsections.container\x7d $\x7bresponsive.hiddenMobile\x7d\x60\x7d>",
  "  Desktop-only content here",
  "</section>",
  "",
  "<section className=\x7b\x60$\x7bsections.container\x7d $\x7bresponsive.mobileOnly\x7d\x60\x7d>",
  "  Mobile-only content here",
  "</section>",
  "*/",
  "",
  "// 6. CARD WITH HOVER EFFECT",
  "/*",
  "<Card className=\x7bgetCardClasses(\x27hover\x27)\x7d>",
  "  <CardHeader>",
  "    <CardTitle className=\x7btypography.h3\x7d>Premium Features</CardTitle>",
  "  </CardHeader>",
  "  <CardContent className=\x7bspacing.spaceY4\x7d>",
  "    <p className=\x7btypography.body\x7d>Feature description</p>",
  "  </CardContent>",
  "</Card>",
  "*/",
  "",
  "// 7. FEATURED/HIGHLIGHTED ELEMENT",
  "/*",
  "<Card className=\x7bgetCardClasses(\x27featured\x27)\x7d>",
  "  <div className=\x7b\x60$\x7bbackgrounds.heroBg\x7d $\x7bspacing.spaceY6\x7d\x60\x7d>",
  "    <Crown className=\x7b\x60$\x7bicons.xxl\x7d $\x7bicons.colorPrimary\x7d\x60\x7d />",
  "    <h2 className=\x7btypography.h2Center\x7d>Premium Access</h2>",
  "  </div>",
  "</Card>",
  "*/",
  "",
  "// 8. BADGE WITH ICON",
  "/*",
  "<div className=\x7b\x60$\x7bbadges.primary\x7d text-white rounded-full px-4 py-2 $\x7blayouts.flexCenter\x7d\x60\x7d>",
  "  <Star className=\x7b\x60$\x7bicons.sm\x7d mr-2\x60\x7d />",
  "  Premium Therapist",
  "</div>",
  "*/",
  "",
  "// 9. FULL-PAGE LAYOUT EXAMPLE",
  "/*",
  "export function ExamplePage() \x7b",
  "  return (",
  "    <div>",
  "      \x7b/* Hero Section */\x7d",
  "      <section className=\x7bsections.hero\x7d>",
  "        <div className=\x7bsections.containerXL\x7d>",
  "          <div className=\x7blayouts.grid2Col\x7d>",
  "            <div className=\x7bspacing.spaceY6\x7d>",
  "              <h1 className=\x7btypography.h1\x7d>Welcome</h1>",
  "              <p className=\x7btypography.textMuted\x7d>Get started today</p>",
  "              <Button className=\x7bbuttons.primaryGradient\x7d>",
  "                Get Started",
  "              </Button>",
  "            </div>",
  "          </div>",
  "        </div>",
  "      </section>",
  "",
  "      \x7b/* Features Section */\x7d",
  "      <section className=\x7b\x60$\x7bsections.containerLarge\x7d py-16\x60\x7d>",
  "        <h2 className=\x7btypography.h2Center\x7d>Why Choose Us?</h2>",
  "        ",
  "        <div className=\x7b\x60$\x7blayouts.grid3Col\x7d mt-12\x60\x7d>",
  "          \x7bfeatures.map((f) => (",
  "            <Card key=\x7bf.id\x7d className=\x7b\x60$\x7bcards.base\x7d $\x7bcards.primary\x7d $\x7bcards.hover\x7d\x60\x7d>",
  "              <f.Icon className=\x7b\x60$\x7bicons.xl\x7d $\x7bicons.colorPrimary\x7d\x60\x7d />",
  "              <h3 className=\x7btypography.h3\x7d>\x7bf.title\x7d</h3>",
  "              <p className=\x7btypography.textMuted\x7d>\x7bf.desc\x7d</p>",
  "            </Card>",
  "          ))\x7d",
  "        </div>",
  "      </section>",
  "",
  "      \x7b/* CTA Section */\x7d",
  "      <section className=\x7bbackgrounds.heroBg\x7d>",
  "        <div className=\x7bsections.containerLarge\x7d>",
  "          <div className=\x7blayouts.flexCenter\x7d>",
  "            <div className=\"text-center\">",
  "              <h2 className=\x7btypography.h2Center\x7d>Ready to Start?</h2>",
  "              <Button className=\x7bbuttons.primaryGradient\x7d>",
  "                Begin Your Journey",
  "              </Button>",
  "            </div>",
  "          </div>",
  "        </div>",
  "      </section>",
  "    </div>",
  "  );",
  "\x7d",
  "*/",
  "",
  "// ============================================",
  "// TIPS FOR DEVELOPERS",
  "// ============================================",
  "",
  "// 1. Combine classes with template literals:",
  "// className=\x7b\x60$\x7blayouts.grid2Col\x7d $\x7bspacing.spaceY6\x7d\x60\x7d",
  "",
  "// 2. Import only what you need:",
  "// import \x7b buttons, cards, typography \x7d from \x27@/styles/classNames\x27;",
  "",
  "// 3. Create new utilities for repeated patterns:",
  "// Add to classNames.js instead of repeating inline",
  "",
  "// 4. Use helper functions for complex patterns:",
  "// className=\x7bgetCardClasses(\x27hover\x27)\x7d",
  "",
  "// 5. Comment your class usage for clarity:",
  "// className=\x7btypography.h1\x7d // Main page heading",
  "",
  "// 6. Check classNames.js for available utilities before creating new ones",
  "",
  "// 7. Organize imports at top of component:",
  "// import classNames from \x27@/styles/classNames\x27;",
  "// or",
  "// import \x7b buttons, cards, spacing, layouts \x7d from \x27@/styles/classNames\x27;",
  "",
  "// ============================================",
  "// CREATING NEW UTILITIES",
  "// ============================================",
  "",
  "// If you need a new class pattern, add it to classNames.js:",
  "",
  "// export const cardPatterns = \x7b",
  "//   withBadge: \"relative rounded-lg border bg-amber-50 border-amber-200\",",
  "//   premium: \"rounded-lg border-2 border-amber-700 bg-gradient-to-br from-amber-50 to-orange-50\",",
  "// \x7d;",
  "",
  "// Then import and use:",
  "// <Card className=\x7bcardPatterns.withBadge\x7d />"
]

/-- Association lookup succeeds only at a pair present in the list. -/
theorem assocFind_mem {α : Type} {k : String} {a : α} {l : List (String × α)}
    (h : assocFind k l = some a) : (k, a) ∈ l := by
  induction l with
  | nil => simp [assocFind] at h
  | cons e rest ih =>
    obtain ⟨k', b⟩ := e
    simp only [assocFind] at h
    by_cases hk : k' = k
    · rw [if_pos hk] at h
      have hb := Option.some.inj h
      subst hb
      subst hk
      exact List.mem_cons_self _ _
    · rw [if_neg hk] at h
      exact List.mem_cons_of_mem _ (ih h)

/-- Under pairwise-distinct keys, association lookup finds exactly the token
paired with the key. -/
theorem assocFind_of_mem {α : Type} {l : List (String × α)}
    (hnd : keysNodupB l = true) {k : String} {a : α} (hm : (k, a) ∈ l) :
    assocFind k l = some a := by
  induction l with
  | nil => simp at hm
  | cons e rest ih =>
    obtain ⟨k', b⟩ := e
    simp only [keysNodupB, Bool.and_eq_true, Bool.not_eq_true'] at hnd
    obtain ⟨hany, hrest⟩ := hnd
    rcases List.mem_cons.mp hm with he | hm'
    · simp only [Prod.mk.injEq] at he
      obtain ⟨rfl, rfl⟩ := he
      simp [assocFind]
    · by_cases hk : k' = k
      · exfalso
        subst hk
        have hin : rest.any (fun e => e.1 == k') = true :=
          List.any_eq_true.mpr ⟨(k', a), hm', by simp⟩
        rw [hany] at hin
        exact Bool.false_ne_true hin
      · simp only [assocFind, if_neg hk]
        exact ih hrest hm'

/-- Every category table in the registry has pairwise-distinct variant
keys: each variant name maps to exactly one token. -/
theorem registryKeysNodup : registry.all (fun e => keysNodupB e.2.2) = true := by
  decide

/-- Every category entry of the registry has a defined token for its
designated default variant. -/
theorem registryDefaultsSome :
    registry.all (fun e => (assocFind e.2.1 e.2.2).isSome) = true := by
  decide

/-- Threading a sequence of calls through the registry state leaves the state
unchanged, and every output depends only on the initial state and on the
input of its own call. -/
theorem runQueries_spec (s : RegistryState) (qs : List (String × String)) :
    (runQueries s qs).2 = s ∧
    (runQueries s qs).1 = qs.map (fun q => (getTokenSt s q.1 q.2).1) := by
  induction qs with
  | nil => exact ⟨rfl, rfl⟩
  | cons q qs ih =>
    refine ⟨ih.1, ?_⟩
    show (getTokenSt s q.1 q.2).1 :: (runQueries s qs).1 =
      (getTokenSt s q.1 q.2).1 :: qs.map (fun r => (getTokenSt s r.1 r.2).1)
    rw [ih.2]

/-- No assignment of literal class strings to the three card constants makes
both documented card refactorings reproduce the shared BEFORE string: the two
AFTER compositions differ by the extra leading token, so their lengths cannot
both match. -/
theorem cardRefactorings_unsatisfiable :
    ¬ ∃ base primary hov : String, cardRefactoringsPreserving base primary hov := by
  rintro ⟨base, primary, hov, h1, h2⟩
  have hlen := congrArg String.length (h1.trans h2.symm)
  have hsp : (" " : String).length = 1 := rfl
  simp only [composeTokens, String.length_append, hsp] at hlen
  omega

/-- C1: for every category and every variant defined in it, `getToken`
returns the exact literal token the registry stores for that pair — a defined
variant is never shadowed by the fallback — and in particular the buttons
category resolves the primary variant to the authored string
`bg-amber-700 hover:bg-amber-800`. -/
theorem getToken_returns_authored_token (c d v t : String)
    (vs : List (String × String)) (hc : findCategory c = some (d, vs))
    (hv : (v, t) ∈ vs) :
    getToken c v = Except.ok t ∧
    getToken ("buttons") ("primary") =
      Except.ok ("bg-amber-700 hover:bg-amber-800") := by
  refine ⟨?_, rfl⟩
  have hc' : assocFind c registry = some (d, vs) := hc
  have hmem : (c, (d, vs)) ∈ registry := assocFind_mem hc'
  have hnd : keysNodupB vs = true := List.all_eq_true.mp registryKeysNodup _ hmem
  have hfind : assocFind v vs = some t := assocFind_of_mem hnd hv
  simp only [getToken, getTokenIn]
  rw [hc']
  simp [hfind]

/-- Witness for the defined-variant theorem, instantiated at the md variant
of the icons category. -/
theorem getToken_returns_authored_token_witness :
    getToken ("icons") ("md") = Except.ok ("size-5") ∧
    getToken ("buttons") ("primary") =
      Except.ok ("bg-amber-700 hover:bg-amber-800") :=
  getToken_returns_authored_token ("icons") ("sm") ("md") ("size-5")
    iconsVariants rfl (by decide)

/-- C2: for every known category, looking up a variant that is not defined in
it returns exactly what looking up the designated default variant of the
category returns, and the call never fails: the result is always an
`Except.ok` value. -/
theorem getToken_missing_variant_falls_back (c d v : String)
    (vs : List (String × String)) (hc : findCategory c = some (d, vs))
    (hv : assocFind v vs = none) :
    getToken c v = getToken c d ∧ ∃ t, getToken c v = Except.ok t := by
  have hc' : assocFind c registry = some (d, vs) := hc
  cases hd : assocFind d vs with
  | none =>
    refine ⟨?_, ⟨(""), ?_⟩⟩ <;> simp [getToken, getTokenIn, hc', hv, hd]
  | some t =>
    refine ⟨?_, ⟨t, ?_⟩⟩ <;> simp [getToken, getTokenIn, hc', hv, hd]

/-- Witness for the fallback theorem: an undefined variant of the cards
category resolves exactly as its documented default variant does. -/
theorem getToken_missing_variant_falls_back_witness :
    getToken ("cards") ("__nonexistent__") = getToken ("cards") ("base") ∧
    ∃ t, getToken ("cards") ("__nonexistent__") = Except.ok t :=
  getToken_missing_variant_falls_back ("cards") ("base") ("__nonexistent__")
    cardsVariants rfl rfl

/-- C3: `composeTokens` is the order-preserving single-space join: the empty
sequence yields the empty string, a singleton yields its token unchanged,
every further token is separated by exactly one space in input order; in
particular three tokens compose to `a ++ " " ++ b ++ " " ++ c` and duplicates
are preserved, not collapsed. -/
theorem composeTokens_single_space_join :
    composeTokens [] = "" ∧
    (∀ a : String, composeTokens [a] = a) ∧
    (∀ (a b : String) (ts : List String),
      composeTokens (a :: b :: ts) = a ++ " " ++ composeTokens (b :: ts)) ∧
    (∀ a b c : String, composeTokens [a, b, c] = a ++ " " ++ b ++ " " ++ c) ∧
    (∀ a : String, composeTokens [a, a] = a ++ " " ++ a) := by
  refine ⟨rfl, fun a => rfl, fun a b ts => rfl, fun a b c => ?_, fun a => rfl⟩
  show a ++ " " ++ (b ++ " " ++ c) = a ++ " " ++ b ++ " " ++ c
  simp [String.append_assoc]

/-- C4: a category name outside the enumerated set fails immediately with the
`UnknownCategory` condition; no empty and no placeholder token is returned. -/
theorem getToken_unknown_category_errors (c v : String)
    (hc : findCategory c = none) :
    getToken c v = Except.error TokenError.unknownCategory := by
  have hc' : assocFind c registry = none := hc
  simp [getToken, getTokenIn, hc']

/-- Witness for the unknown-category theorem at a concrete absent name. -/
theorem getToken_unknown_category_errors_witness :
    getToken ("not-a-category") ("primary") =
      Except.error TokenError.unknownCategory :=
  getToken_unknown_category_errors ("not-a-category") ("primary") rfl

/-- C5: the registry is immutable after initialization and `getToken` is pure
over it: threading any sequence of calls through the registry state returns
the state exactly as it was, and two calls anywhere in the sequence whose
(category, variant) inputs coincide produce identical outputs. -/
theorem registry_immutable_and_calls_deterministic (s : RegistryState)
    (qs : List (String × String)) (i j : Nat) (hij : qs[i]? = qs[j]?) :
    (runQueries s qs).2 = s ∧
    (runQueries s qs).1[i]? = (runQueries s qs).1[j]? := by
  obtain ⟨hstate, houts⟩ := runQueries_spec s qs
  refine ⟨hstate, ?_⟩
  rw [houts]
  simp only [List.getElem?_map, hij]

/-- Witness for immutability and determinism: two identical lookups of the
primary button leave the initial state unchanged and return equal outputs. -/
theorem registry_immutable_and_calls_deterministic_witness :
    (runQueries initialRegistryState
        [(("buttons"), ("primary")), (("buttons"), ("primary"))]).2 =
      initialRegistryState ∧
    (runQueries initialRegistryState
        [(("buttons"), ("primary")), (("buttons"), ("primary"))]).1[0]? =
      (runQueries initialRegistryState
        [(("buttons"), ("primary")), (("buttons"), ("primary"))]).1[1]? :=
  registry_immutable_and_calls_deterministic initialRegistryState
    [(("buttons"), ("primary")), (("buttons"), ("primary"))] 0 1 rfl

/-- C6: `composeTokens` is idempotent on an already-composed string: wrapping
the composed result as a singleton sequence and composing again returns the
same string, for every input sequence. -/
theorem composeTokens_idempotent (ts : List String) :
    composeTokens [composeTokens ts] = composeTokens ts := rfl

/-- C7: for every category entry of the registry, the designated default
variant — the one the fallback accessors substitute for a missing variant —
is itself a defined variant of that category: its lookup succeeds. -/
theorem default_variant_defined (e : String × String × List (String × String))
    (he : e ∈ registry) : ∃ t, assocFind e.2.1 e.2.2 = some t := by
  have h := List.all_eq_true.mp registryDefaultsSome _ he
  exact Option.isSome_iff_exists.mp h

/-- Witness for the default-variant theorem at the cards category, whose
documented default is base. -/
theorem default_variant_defined_witness :
    ∃ t, assocFind ("base") cardsVariants = some t :=
  default_variant_defined (("cards"), ("base"), cardsVariants) (by decide)

/-- C8: evaluation of the line scan of DEVELOPER_EXAMPLES.js under the
ECMAScript lexical grammar, in which block comments do not nest: each of the
first 136 lines is blank or pure comment, but the inner close-comment
sequence on line 137 (index 136) terminates the block comment opened on line
133, leaving code tokens on that line — so not every line of the file is a
comment or blank, and evaluating the module is not a no-op. -/
theorem developerExamples_not_all_comments :
    ((scanLines false developerExamplesLines).take 136).all (fun b => !b) =
      true ∧
    (scanLines false developerExamplesLines).getD 136 false = true ∧
    developerExamplesLines.getD 136 ("") =
      ("      \x7b/* Hero Section */\x7d") ∧
    developerExamplesLines.length = 223 :=
  ⟨rfl, rfl, rfl, rfl⟩

/-- C9 fails as stated: the two documented card refactorings replace the same
BEFORE class string with different compositions — the implementation guide
composes the primary and hover card constants, while DEVELOPER_EXAMPLES.js
composes base, primary and hover — and no assignment of literal strings to
the three constants preserves both; moreover the Apply-to-Components BEFORE
string differs from the authored primary-button literal. -/
theorem refactorings_not_all_preserving :
    (¬ ∃ base primary hov : String,
      cardRefactoringsPreserving base primary hov) ∧
    applyComponentsButtonBefore ≠ ("bg-amber-700 hover:bg-amber-800") :=
  ⟨cardRefactorings_unsatisfiable, by decide⟩

/-- C9 amended: the button Pattern 1 and typography Pattern 4 refactorings
are class-string preserving — the primary button constant denotes the
authored literal `bg-amber-700 hover:bg-amber-800` and the h1 constant
denotes `text-5xl font-bold text-gray-900`, consistently across the documents
that show them — but the card refactorings have no preserving assignment,
and the Apply-to-Components BEFORE string is not the authored primary-button
literal. -/
theorem refactorings_partially_preserving :
    getToken ("buttons") ("primary") =
      Except.ok ("bg-amber-700 hover:bg-amber-800") ∧
    getToken ("typography") ("h1") =
      Except.ok ("text-5xl font-bold text-gray-900") ∧
    applyComponentsButtonBefore ≠ ("bg-amber-700 hover:bg-amber-800") ∧
    ¬ ∃ base primary hov : String,
      cardRefactoringsPreserving base primary hov :=
  ⟨rfl, rfl, by decide, cardRefactorings_unsatisfiable⟩

/-- C10: the icon size scale is strictly monotone — the size utilities of the
ordered variants sm, md, lg, xl, xxl, xxxl, huge denote 16, 20, 24, 32, 40,
48 and 64 pixels, a strictly increasing sequence — and the quick-reference
pixel table agrees with the size table of the developer guide on every
variant name both documents list. -/
theorem icon_scale_monotone_and_consistent :
    List.Pairwise (· < ·)
      (guideIconSizeUnits.map (fun e => tailwindSizePx e.2)) ∧
    guideIconSizeUnits.map (fun e => tailwindSizePx e.2) =
      [16, 20, 24, 32, 40, 48, 64] ∧
    quickReferenceIconSizesPx.all (fun e =>
      guideIconSizeUnits.any (fun p =>
        p.1 == e.1 && e.2 == tailwindSizePx p.2)) = true := by
  refine ⟨by decide, rfl, rfl⟩
